import Mathlib

/-!
# Shader compilation, program linking and debug-message formatting of `main.cpp`

A shallow embedding of the three functions of `src/main.cpp` that carry behaviour worth
stating: `debugCallback`, `newShader` and `newProgram`.

* The graphics driver is an external collaborator.  It is a parameter of the embedding: a
  record `Driver σ` of arbitrary functions over an arbitrary driver state `σ`.  Every call the
  program makes is appended, with the driver's answer, to a trace.
* The `GL_*` constants come from `glad.h`, which is not part of the sources.  They are a
  parameter too (`GLConstants`); `glad` is the instance with the values of the OpenGL registry.
* A C++ exception is the `error` side of `Except`; the world reached when it was thrown is
  returned next to it.
* `std::cerr` is the text written to it so far together with the two parts of its state that
  the insertions of the program read: the number base and the error state.
-/

namespace AmdErrorDemo

/-! ## OpenGL scalar types and the constants of `glad.h` -/

abbrev GLenum := Nat
abbrev GLuint := Nat
abbrev GLint := Int
abbrev GLsizei := Int

/-- The constants of `glad.h` that `main.cpp` uses in the three embedded functions.  The header
is not among the sources, so their values are parameters. -/
structure GLConstants where
  GL_FALSE : GLint
  GL_VERTEX_SHADER : GLenum
  GL_FRAGMENT_SHADER : GLenum
  GL_COMPILE_STATUS : GLenum
  GL_LINK_STATUS : GLenum
  GL_INFO_LOG_LENGTH : GLenum
  GL_DEBUG_SOURCE_API : GLenum
  GL_DEBUG_SOURCE_APPLICATION : GLenum
  GL_DEBUG_SOURCE_SHADER_COMPILER : GLenum
  GL_DEBUG_SOURCE_THIRD_PARTY : GLenum
  GL_DEBUG_SOURCE_WINDOW_SYSTEM : GLenum
  GL_DEBUG_TYPE_ERROR : GLenum
  GL_DEBUG_TYPE_DEPRECATED_BEHAVIOR : GLenum
  GL_DEBUG_TYPE_MARKER : GLenum
  GL_DEBUG_TYPE_PERFORMANCE : GLenum
  GL_DEBUG_TYPE_POP_GROUP : GLenum
  GL_DEBUG_TYPE_PORTABILITY : GLenum
  GL_DEBUG_TYPE_PUSH_GROUP : GLenum
  GL_DEBUG_TYPE_UNDEFINED_BEHAVIOR : GLenum
  GL_DEBUG_SEVERITY_HIGH : GLenum
  GL_DEBUG_SEVERITY_MEDIUM : GLenum
  GL_DEBUG_SEVERITY_LOW : GLenum
  GL_DEBUG_SEVERITY_NOTIFICATION : GLenum

/-- The case labels of each `switch` of `debugCallback` are pairwise different.  C++ rejects a
`switch` with two equal case labels, so every header the program compiles against satisfies
this. -/
def GLConstants.DistinctCases (c : GLConstants) : Prop :=
  [c.GL_DEBUG_SOURCE_API, c.GL_DEBUG_SOURCE_APPLICATION, c.GL_DEBUG_SOURCE_SHADER_COMPILER,
    c.GL_DEBUG_SOURCE_THIRD_PARTY, c.GL_DEBUG_SOURCE_WINDOW_SYSTEM].Nodup ∧
  [c.GL_DEBUG_TYPE_ERROR, c.GL_DEBUG_TYPE_DEPRECATED_BEHAVIOR, c.GL_DEBUG_TYPE_MARKER,
    c.GL_DEBUG_TYPE_PERFORMANCE, c.GL_DEBUG_TYPE_POP_GROUP, c.GL_DEBUG_TYPE_PORTABILITY,
    c.GL_DEBUG_TYPE_PUSH_GROUP, c.GL_DEBUG_TYPE_UNDEFINED_BEHAVIOR].Nodup ∧
  [c.GL_DEBUG_SEVERITY_HIGH, c.GL_DEBUG_SEVERITY_MEDIUM, c.GL_DEBUG_SEVERITY_LOW,
    c.GL_DEBUG_SEVERITY_NOTIFICATION].Nodup

instance (c : GLConstants) : Decidable c.DistinctCases := by
  unfold GLConstants.DistinctCases; infer_instance

/-- The values the OpenGL registry assigns to the constants (what a generated `glad.h`
contains). -/
def glad : GLConstants where
  GL_FALSE := 0
  GL_VERTEX_SHADER := 0x8B31
  GL_FRAGMENT_SHADER := 0x8B30
  GL_COMPILE_STATUS := 0x8B81
  GL_LINK_STATUS := 0x8B82
  GL_INFO_LOG_LENGTH := 0x8B84
  GL_DEBUG_SOURCE_API := 0x8246
  GL_DEBUG_SOURCE_APPLICATION := 0x824A
  GL_DEBUG_SOURCE_SHADER_COMPILER := 0x8248
  GL_DEBUG_SOURCE_THIRD_PARTY := 0x8249
  GL_DEBUG_SOURCE_WINDOW_SYSTEM := 0x8247
  GL_DEBUG_TYPE_ERROR := 0x824C
  GL_DEBUG_TYPE_DEPRECATED_BEHAVIOR := 0x824D
  GL_DEBUG_TYPE_MARKER := 0x8268
  GL_DEBUG_TYPE_PERFORMANCE := 0x8250
  GL_DEBUG_TYPE_POP_GROUP := 0x826A
  GL_DEBUG_TYPE_PORTABILITY := 0x824F
  GL_DEBUG_TYPE_PUSH_GROUP := 0x8269
  GL_DEBUG_TYPE_UNDEFINED_BEHAVIOR := 0x824E
  GL_DEBUG_SEVERITY_HIGH := 0x9146
  GL_DEBUG_SEVERITY_MEDIUM := 0x9147
  GL_DEBUG_SEVERITY_LOW := 0x9148
  GL_DEBUG_SEVERITY_NOTIFICATION := 0x826B

/-! ## `debugCallback` (main.cpp, lines 15-95) -/

/-- The number base of an output stream (`std::ios_base::basefield`). -/
inductive Basefield where
  | dec
  | oct
  | hex
  deriving DecidableEq, Repr

/-- An output stream: the text written to it so far, its number base, and whether an error
flag is set (an insertion into such a stream writes nothing).  Field width, fill character,
`showbase`, `uppercase` and the locale are taken at the values a stream starts with. -/
structure OStream where
  text : String
  basefield : Basefield
  failed : Bool
  deriving DecidableEq, Repr

/-- The stream `std::cerr` as the program finds it: nothing written, decimal, no error. -/
def OStream.fresh : OStream := ⟨"", .dec, false⟩

/-- The insertion `os << s` of a string or a C string. -/
def OStream.put (os : OStream) (s : String) : OStream :=
  if os.failed then os else { os with text := os.text ++ s }

/-- The digits of an unsigned number in a base, as `<<` writes them. -/
def numeral : Basefield → Nat → String
  | .dec, n => toString n
  | .oct, n => (Nat.toDigits 8 n).asString
  | .hex, n => (Nat.toDigits 16 n).asString

/-- The insertion `os << n` of an `unsigned int`. -/
def OStream.putUnsigned (os : OStream) (n : Nat) : OStream :=
  os.put (numeral os.basefield n)

/-- The insertion `os << std::endl`: a line break (the flush leaves the stream as it is). -/
def endl (os : OStream) : OStream := os.put "\n"

/-- The first `switch` of `debugCallback` (lines 21-40): the value of `sourceString`. -/
def debugCallback.sourceString (c : GLConstants) (source : GLenum) : String :=
  if source = c.GL_DEBUG_SOURCE_API then "OpenGL API"
  else if source = c.GL_DEBUG_SOURCE_APPLICATION then "Application"
  else if source = c.GL_DEBUG_SOURCE_SHADER_COMPILER then "Shader Compiler"
  else if source = c.GL_DEBUG_SOURCE_THIRD_PARTY then "Third Party"
  else if source = c.GL_DEBUG_SOURCE_WINDOW_SYSTEM then "Window System"
  else "Other"

/-- The second `switch` of `debugCallback` (lines 42-70): the value of `typeString`. -/
def debugCallback.typeString (c : GLConstants) (type : GLenum) : String :=
  if type = c.GL_DEBUG_TYPE_ERROR then "Error"
  else if type = c.GL_DEBUG_TYPE_DEPRECATED_BEHAVIOR then "Deprecated behavior"
  else if type = c.GL_DEBUG_TYPE_MARKER then "Marker"
  else if type = c.GL_DEBUG_TYPE_PERFORMANCE then "Performance"
  else if type = c.GL_DEBUG_TYPE_POP_GROUP then "Pop group"
  else if type = c.GL_DEBUG_TYPE_PORTABILITY then "Portability"
  else if type = c.GL_DEBUG_TYPE_PUSH_GROUP then "Push group"
  else if type = c.GL_DEBUG_TYPE_UNDEFINED_BEHAVIOR then "Undefined behavior"
  else "Other"

/-- The third `switch` of `debugCallback` (lines 72-87): the value of `severityString`. -/
def debugCallback.severityString (c : GLConstants) (severity : GLenum) : String :=
  if severity = c.GL_DEBUG_SEVERITY_HIGH then "High"
  else if severity = c.GL_DEBUG_SEVERITY_MEDIUM then "Medium"
  else if severity = c.GL_DEBUG_SEVERITY_LOW then "Low"
  else if severity = c.GL_DEBUG_SEVERITY_NOTIFICATION then "Notification"
  else "Other"

/-- The function `debugCallback`: the stream `std::cerr` after the call, given the stream
`cerr` before.  `id` is a `GLuint`; `message` is the text of the C string; `userParam` is the
pointer value.  The chain of `<<` of lines 90-94 is kept in its order, one step per
operand. -/
def debugCallback (c : GLConstants) (source type : GLenum) (id : GLuint) (severity : GLenum)
    (length : GLsizei) (message : String) (userParam : Nat) (cerr : OStream) : OStream :=
  let sourceString := debugCallback.sourceString c source
  let typeString := debugCallback.typeString c type
  let severityString := debugCallback.severityString c severity
  let os := endl ((cerr.put "Type:").put typeString)
  let os := endl ((os.put "Source: ").put sourceString)
  let os := endl ((os.put "Severity: ").put severityString)
  let os := endl ((os.put "ID: ").putUnsigned id)
  endl (endl ((os.put "Message: ").put message))

/-! ### Vocabulary of the claims about `debugCallback` -/

/-- The reference table of source labels, as the specification lists it. -/
def sourceTable (c : GLConstants) : List (GLenum × String) :=
  [(c.GL_DEBUG_SOURCE_API, "OpenGL API"), (c.GL_DEBUG_SOURCE_APPLICATION, "Application"),
   (c.GL_DEBUG_SOURCE_SHADER_COMPILER, "Shader Compiler"),
   (c.GL_DEBUG_SOURCE_THIRD_PARTY, "Third Party"),
   (c.GL_DEBUG_SOURCE_WINDOW_SYSTEM, "Window System")]

/-- The reference table of type labels, as the specification lists it. -/
def typeTable (c : GLConstants) : List (GLenum × String) :=
  [(c.GL_DEBUG_TYPE_ERROR, "Error"), (c.GL_DEBUG_TYPE_DEPRECATED_BEHAVIOR, "Deprecated behavior"),
   (c.GL_DEBUG_TYPE_MARKER, "Marker"), (c.GL_DEBUG_TYPE_PERFORMANCE, "Performance"),
   (c.GL_DEBUG_TYPE_POP_GROUP, "Pop group"), (c.GL_DEBUG_TYPE_PORTABILITY, "Portability"),
   (c.GL_DEBUG_TYPE_PUSH_GROUP, "Push group"),
   (c.GL_DEBUG_TYPE_UNDEFINED_BEHAVIOR, "Undefined behavior")]

/-- The reference table of severity labels, as the specification lists it. -/
def severityTable (c : GLConstants) : List (GLenum × String) :=
  [(c.GL_DEBUG_SEVERITY_HIGH, "High"), (c.GL_DEBUG_SEVERITY_MEDIUM, "Medium"),
   (c.GL_DEBUG_SEVERITY_LOW, "Low"), (c.GL_DEBUG_SEVERITY_NOTIFICATION, "Notification")]

/-- The six source labels of the specification. -/
def sourceLabels : List String :=
  ["OpenGL API", "Application", "Shader Compiler", "Third Party", "Window System", "Other"]

/-- The nine type labels of the specification. -/
def typeLabels : List String :=
  ["Error", "Deprecated behavior", "Marker", "Performance", "Pop group", "Portability",
   "Push group", "Undefined behavior", "Other"]

/-- The five severity labels of the specification. -/
def severityLabels : List String := ["High", "Medium", "Low", "Notification", "Other"]

/-- A code is recognized by a table when the table has a row for it. -/
def Recognized (table : List (GLenum × String)) (code : GLenum) : Prop :=
  code ∈ table.map Prod.fst

instance (table : List (GLenum × String)) (code : GLenum) : Decidable (Recognized table code) := by
  unfold Recognized; infer_instance

/-- The lines of a text: the pieces between line breaks (a text that ends in a line break has
an empty last piece). -/
def splitLines : List Char → List (List Char)
  | [] => [[]]
  | ch :: cs =>
    if ch = '\n' then [] :: splitLines cs
    else match splitLines cs with
      | l :: ls => (ch :: l) :: ls
      | [] => [[ch]]

/-- The non-empty lines of a text, in order. -/
def textLines (s : String) : List String :=
  ((splitLines s.data).filter (fun l => !l.isEmpty)).map String.mk

/-- The text has no line break in it. -/
def SingleLine (s : String) : Prop := '\n' ∉ s.data

instance (s : String) : Decidable (SingleLine s) := by
  unfold SingleLine; infer_instance

/-- The five lines of one record, in the order of the output. -/
def recordLines (typeLabel sourceLabel severityLabel : String) (id : GLuint) (message : String) :
    List String :=
  ["Type:" ++ typeLabel, "Source: " ++ sourceLabel, "Severity: " ++ severityLabel,
   "ID: " ++ toString id, "Message: " ++ message]

/-- The five lines of one record on a stream of number base `base`. -/
def recordLinesIn (base : Basefield) (typeLabel sourceLabel severityLabel : String)
    (id : GLuint) (message : String) : List String :=
  ["Type:" ++ typeLabel, "Source: " ++ sourceLabel, "Severity: " ++ severityLabel,
   "ID: " ++ numeral base id, "Message: " ++ message]

/-- A list of lines as one text, every line ended by a line break. -/
def unlines (ls : List String) : String :=
  ls.foldr (fun l acc => l ++ "\n" ++ acc) ""

/-! ## The graphics driver -/

/-- One call of the program into the driver, with what the driver gave back. -/
inductive Call where
  | glCreateShader (shaderType : GLenum) (ret : GLuint)
  | glShaderSource (shader : GLuint) (string : String)
  | glCompileShader (shader : GLuint)
  | glGetShaderiv (shader : GLuint) (pname : GLenum) (params : GLint)
  | glGetShaderInfoLog (shader : GLuint) (bufSize : GLsizei) (infoLog : String)
  | glCreateProgram (ret : GLuint)
  | glAttachShader (program shader : GLuint)
  | glLinkProgram (program : GLuint)
  | glGetProgramiv (program : GLuint) (pname : GLenum) (params : GLint)
  | glGetProgramInfoLog (program : GLuint) (bufSize : GLsizei) (infoLog : String)
  | glDeleteShader (shader : GLuint)
  | glDeleteProgram (program : GLuint)
  deriving DecidableEq, Repr

/-- A driver behaviour: what each entry point returns and how it changes the driver's state.
Nothing is assumed about it, except that a `GLint` it stores is a 32-bit value.  `glGetShaderiv` and `glGetProgramiv` receive the value that
`*params` holds before the call and return the value it holds after it, so a driver that
leaves `*params` untouched is one that returns its argument.  `glGetShaderInfoLog` and
`glGetProgramInfoLog` return the characters the driver stores at the start of the buffer.
`glDeleteProgram` completes the interface; the program never calls it. -/
structure Driver (σ : Type) where
  glCreateShader : GLenum → σ → GLuint × σ
  glShaderSource : GLuint → String → σ → σ
  glCompileShader : GLuint → σ → σ
  glGetShaderiv : GLuint → GLenum → GLint → σ → GLint × σ
  glGetShaderInfoLog : GLuint → GLsizei → σ → String × σ
  glCreateProgram : σ → GLuint × σ
  glAttachShader : GLuint → GLuint → σ → σ
  glLinkProgram : GLuint → σ → σ
  glGetProgramiv : GLuint → GLenum → GLint → σ → GLint × σ
  glGetProgramInfoLog : GLuint → GLsizei → σ → String × σ
  glDeleteShader : GLuint → σ → σ
  glDeleteProgram : GLuint → σ → σ

/-- The driver's state together with the calls made so far, oldest first. -/
structure World (σ : Type) where
  driver : σ
  calls : List Call

/-- A world in which no call has been made yet. -/
def World.init {σ : Type} (s : σ) : World σ := ⟨s, []⟩

/-- The C string of a `std::string`: its characters up to the first NUL. -/
def c_str (s : String) : String := ⟨s.data.takeWhile (fun ch => ch ≠ Char.ofNat 0)⟩

/-- The value of a 32-bit `int` computation whose exact result is `x`: the result reduced to the
range of `int`.  It is `x` itself when `x` is in the range. -/
def wrapInt32 (x : Int) : Int := (x + 2147483648) % 4294967296 - 2147483648

/-- The call `s.resize(n, '\x00')` on an empty string, `n` an `int`: a negative `n` converts to
a size above `max_size()` and `std::length_error` is thrown (`none`); otherwise the string is
`n` NUL characters.  Memory is taken to be sufficient. -/
def resize (n : Int) : Option String :=
  if n < 0 then none else some ⟨List.replicate n.toNat (Char.ofNat 0)⟩

/-- The buffer after the driver stored `written` at its start; a driver stores at most
`bufSize` characters. -/
def storeLog (buffer : String) (bufSize : GLsizei) (written : String) : String :=
  let stored := written.data.take bufSize.toNat
  ⟨stored ++ buffer.data.drop stored.length⟩

/-- The exceptions the two functions can throw: the `std::runtime_error` of lines 144 and 172,
constructed from a `std::string`, and the `std::length_error` of `resize`.  Neither has a
field for a shader stage. -/
inductive Exception where
  | runtime_error (what_arg : String)
  | length_error
  deriving DecidableEq, Repr

/-- The text `what()` returns for a `std::runtime_error`: the C string of its argument.  The
text of a `std::length_error` is left to the standard library (`none`). -/
def Exception.what : Exception → Option String
  | .runtime_error what_arg => some (c_str what_arg)
  | .length_error => none

section Calls
variable {σ : Type}

def glCreateShader (d : Driver σ) (shaderType : GLenum) (w : World σ) : GLuint × World σ :=
  let r := d.glCreateShader shaderType w.driver
  (r.1, ⟨r.2, w.calls ++ [.glCreateShader shaderType r.1]⟩)

def glShaderSource (d : Driver σ) (shader : GLuint) (string : String) (w : World σ) : World σ :=
  ⟨d.glShaderSource shader string w.driver, w.calls ++ [.glShaderSource shader string]⟩

def glCompileShader (d : Driver σ) (shader : GLuint) (w : World σ) : World σ :=
  ⟨d.glCompileShader shader w.driver, w.calls ++ [.glCompileShader shader]⟩

def glGetShaderiv (d : Driver σ) (shader : GLuint) (pname : GLenum) (params : GLint)
    (w : World σ) : GLint × World σ :=
  let r := d.glGetShaderiv shader pname params w.driver
  (r.1, ⟨r.2, w.calls ++ [.glGetShaderiv shader pname r.1]⟩)

def glGetShaderInfoLog (d : Driver σ) (shader : GLuint) (bufSize : GLsizei) (infoLog : String)
    (w : World σ) : String × World σ :=
  let r := d.glGetShaderInfoLog shader bufSize w.driver
  let infoLog := storeLog infoLog bufSize r.1
  (infoLog, ⟨r.2, w.calls ++ [.glGetShaderInfoLog shader bufSize infoLog]⟩)

def glCreateProgram (d : Driver σ) (w : World σ) : GLuint × World σ :=
  let r := d.glCreateProgram w.driver
  (r.1, ⟨r.2, w.calls ++ [.glCreateProgram r.1]⟩)

def glAttachShader (d : Driver σ) (program shader : GLuint) (w : World σ) : World σ :=
  ⟨d.glAttachShader program shader w.driver, w.calls ++ [.glAttachShader program shader]⟩

def glLinkProgram (d : Driver σ) (program : GLuint) (w : World σ) : World σ :=
  ⟨d.glLinkProgram program w.driver, w.calls ++ [.glLinkProgram program]⟩

def glGetProgramiv (d : Driver σ) (program : GLuint) (pname : GLenum) (params : GLint)
    (w : World σ) : GLint × World σ :=
  let r := d.glGetProgramiv program pname params w.driver
  (r.1, ⟨r.2, w.calls ++ [.glGetProgramiv program pname r.1]⟩)

def glGetProgramInfoLog (d : Driver σ) (program : GLuint) (bufSize : GLsizei) (infoLog : String)
    (w : World σ) : String × World σ :=
  let r := d.glGetProgramInfoLog program bufSize w.driver
  let infoLog := storeLog infoLog bufSize r.1
  (infoLog, ⟨r.2, w.calls ++ [.glGetProgramInfoLog program bufSize infoLog]⟩)

def glDeleteShader (d : Driver σ) (shader : GLuint) (w : World σ) : World σ :=
  ⟨d.glDeleteShader shader w.driver, w.calls ++ [.glDeleteShader shader]⟩

/-! ## `newShader` (main.cpp, lines 126-148) and `newProgram` (lines 150-179) -/

/-- The function `newShader`.  The result is the returned handle or the exception thrown,
together with the world at that point.  `status` and `logLength` are initialized to `0` before
the query that fills them and hold the 32-bit value the driver stores.  `logLength + 1` is a
32-bit addition: at `INT_MAX` it overflows to `INT_MIN`, and `resize` throws. -/
def newShader (c : GLConstants) (d : Driver σ) (shaderType : GLenum) (source : String)
    (w : World σ) : Except Exception GLuint × World σ :=
  let (id, w) := glCreateShader d shaderType w
  let w := glShaderSource d id (c_str source) w
  let w := glCompileShader d id w
  let (status, w) := glGetShaderiv d id c.GL_COMPILE_STATUS 0 w
  if status = c.GL_FALSE then
    let (logLength, w) := glGetShaderiv d id c.GL_INFO_LOG_LENGTH 0 w
    match resize (wrapInt32 (logLength + 1)) with
    | none => (.error .length_error, w)
    | some log =>
      let (log, w) := glGetShaderInfoLog d id logLength log w
      (.error (.runtime_error log), w)
  else
    (.ok id, w)

/-- The function `newProgram`.  An exception of `newShader` leaves the function at once. -/
def newProgram (c : GLConstants) (d : Driver σ) (vertexShaderSource fragmentShaderSource : String)
    (w : World σ) : Except Exception GLuint × World σ :=
  match newShader c d c.GL_VERTEX_SHADER vertexShaderSource w with
  | (.error e, w) => (.error e, w)
  | (.ok vertexShader, w) =>
  match newShader c d c.GL_FRAGMENT_SHADER fragmentShaderSource w with
  | (.error e, w) => (.error e, w)
  | (.ok fragmentShader, w) =>
  let (program, w) := glCreateProgram d w
  let w := glAttachShader d program vertexShader w
  let w := glAttachShader d program fragmentShader w
  let w := glLinkProgram d program w
  let (status, w) := glGetProgramiv d program c.GL_LINK_STATUS 0 w
  if status = c.GL_FALSE then
    let (logLength, w) := glGetProgramiv d program c.GL_INFO_LOG_LENGTH 0 w
    match resize (wrapInt32 (logLength + 1)) with
    | none => (.error .length_error, w)
    | some log =>
      let (log, w) := glGetProgramInfoLog d program logLength log w
      (.error (.runtime_error log), w)
  else
    let w := glDeleteShader d vertexShader w
    let w := glDeleteShader d fragmentShader w
    (.ok program, w)

end Calls

/-! ### Vocabulary of the claims about `newShader` and `newProgram` -/

/-- What the driver answers when a shader is created, given its source, compiled and asked
for its compile status: the handle, the status, and the driver's state after the query. -/
structure Compiled (σ : Type) where
  shader : GLuint
  status : GLint
  state : σ

/-- What the driver answers when a program is created, given two shaders, linked and asked
for its link status: the handle, the status, and the driver's state after the query. -/
structure Linked (σ : Type) where
  program : GLuint
  status : GLint
  state : σ

/-- The answers of driver `d` in state `s` to the creation of a shader of stage `shaderType`,
the submission of `source` as a C string, the compile request and the compile-status query
(with `*params` holding `0`).  This is a property of the driver alone. -/
def Driver.compiled {σ : Type} (d : Driver σ) (c : GLConstants) (shaderType : GLenum)
    (source : String) (s : σ) : Compiled σ :=
  let created := d.glCreateShader shaderType s
  let compiled := d.glCompileShader created.1 (d.glShaderSource created.1 (c_str source) created.2)
  let queried := d.glGetShaderiv created.1 c.GL_COMPILE_STATUS 0 compiled
  ⟨created.1, queried.1, queried.2⟩

/-- The answers of driver `d` in state `s` to the creation of a program, the attachment of
`vertexShader` and then of `fragmentShader`, the link request and the link-status query (with
`*params` holding `0`).  This is a property of the driver alone. -/
def Driver.linked {σ : Type} (d : Driver σ) (c : GLConstants)
    (vertexShader fragmentShader : GLuint) (s : σ) : Linked σ :=
  let created := d.glCreateProgram s
  let linked := d.glLinkProgram created.1
    (d.glAttachShader created.1 fragmentShader
      (d.glAttachShader created.1 vertexShader created.2))
  let queried := d.glGetProgramiv created.1 c.GL_LINK_STATUS 0 linked
  ⟨created.1, queried.1, queried.2⟩

/-- The driver's answers for the vertex shader of source `vs`, compiled first. -/
def Driver.vertex {σ : Type} (d : Driver σ) (c : GLConstants) (vs : String) (s : σ) :
    Compiled σ :=
  d.compiled c c.GL_VERTEX_SHADER vs s

/-- The driver's answers for the fragment shader of source `fs`, compiled after the vertex
shader. -/
def Driver.fragment {σ : Type} (d : Driver σ) (c : GLConstants) (vs fs : String) (s : σ) :
    Compiled σ :=
  d.compiled c c.GL_FRAGMENT_SHADER fs (d.vertex c vs s).state

/-- The driver's answers for the program linked from these two shaders. -/
def Driver.program {σ : Type} (d : Driver σ) (c : GLConstants) (vs fs : String) (s : σ) :
    Linked σ :=
  d.linked c (d.vertex c vs s).shader (d.fragment c vs fs s).shader (d.fragment c vs fs s).state

/-- The four calls of one compile: creation of a shader of stage `shaderType` answered with
handle `id`, submission of the source, the compile request, and the compile-status query
answered with `status`. -/
def compileCalls (c : GLConstants) (shaderType : GLenum) (id : GLuint) (source : String)
    (status : GLint) : List Call :=
  [.glCreateShader shaderType id, .glShaderSource id (c_str source), .glCompileShader id,
   .glGetShaderiv id c.GL_COMPILE_STATUS status]

/-- The five calls that build a program from two shaders: creation answered with handle
`program`, the two attachments, the link request, and the link-status query answered with
`status`. -/
def linkCalls (c : GLConstants) (program vertexShader fragmentShader : GLuint)
    (status : GLint) : List Call :=
  [.glCreateProgram program, .glAttachShader program vertexShader,
   .glAttachShader program fragmentShader, .glLinkProgram program,
   .glGetProgramiv program c.GL_LINK_STATUS status]

/-- How a failed compile of shader `id` ends: the log length is queried; then either `resize`
throws, or the log is fetched with that length and thrown as a `std::runtime_error`. -/
def ShaderLogRead (c : GLConstants) (id : GLuint) (calls : List Call) (e : Exception) : Prop :=
  ∃ logLength : GLint,
    (calls = [.glGetShaderiv id c.GL_INFO_LOG_LENGTH logLength] ∧ e = .length_error) ∨
    ∃ log : String, calls = [.glGetShaderiv id c.GL_INFO_LOG_LENGTH logLength,
      .glGetShaderInfoLog id logLength log] ∧ e = .runtime_error log

/-- How a failed link of program `program` ends, in the same way. -/
def ProgramLogRead (c : GLConstants) (program : GLuint) (calls : List Call) (e : Exception) :
    Prop :=
  ∃ logLength : GLint,
    (calls = [.glGetProgramiv program c.GL_INFO_LOG_LENGTH logLength] ∧ e = .length_error) ∨
    ∃ log : String, calls = [.glGetProgramiv program c.GL_INFO_LOG_LENGTH logLength,
      .glGetProgramInfoLog program logLength log] ∧ e = .runtime_error log

/-- The driver's answer to the log-length query that follows the compile-status query on
that shader (with `*params` holding `0`): the length and the state after. -/
def Driver.lengthQueried {σ : Type} (d : Driver σ) (c : GLConstants) (shaderType : GLenum)
    (source : String) (s : σ) : GLint × σ :=
  d.glGetShaderiv (d.compiled c shaderType source s).shader c.GL_INFO_LOG_LENGTH 0
    (d.compiled c shaderType source s).state

/-- The driver's answer to the fetch of the log with that length, asked next: the characters
stored and the state after. -/
def Driver.logFetched {σ : Type} (d : Driver σ) (c : GLConstants) (shaderType : GLenum)
    (source : String) (s : σ) : String × σ :=
  d.glGetShaderInfoLog (d.compiled c shaderType source s).shader
    (d.lengthQueried c shaderType source s).1 (d.lengthQueried c shaderType source s).2

/-- Both compiles and the link succeed: the driver answers neither the compile-status query
on the vertex shader, nor the one on the fragment shader, nor the link-status query on the
program with `GL_FALSE`. -/
def AllSucceed {σ : Type} (c : GLConstants) (d : Driver σ) (vs fs : String) (s : σ) : Prop :=
  (d.vertex c vs s).status ≠ c.GL_FALSE ∧ (d.fragment c vs fs s).status ≠ c.GL_FALSE ∧
  (d.program c vs fs s).status ≠ c.GL_FALSE

instance {σ : Type} (c : GLConstants) (d : Driver σ) (vs fs : String) (s : σ) :
    Decidable (AllSucceed c d vs fs s) := by
  unfold AllSucceed; infer_instance

/-- A call that releases a driver object. -/
def Call.isRelease : Call → Bool
  | .glDeleteShader _ => true
  | .glDeleteProgram _ => true
  | _ => false

/-- The release calls among `calls`, in order. -/
def releases (calls : List Call) : List Call := calls.filter Call.isRelease

/-- A call that creates, fills or compiles a shader. -/
def Call.isShaderBuild : Call → Bool
  | .glCreateShader _ _ => true
  | .glShaderSource _ _ => true
  | .glCompileShader _ => true
  | _ => false

/-- A call that creates a program, attaches a shader to one or links one. -/
def Call.isProgramBuild : Call → Bool
  | .glCreateProgram _ => true
  | .glAttachShader _ _ => true
  | .glLinkProgram _ => true
  | _ => false

/-- The value OpenGL specifies for `GL_INFO_LOG_LENGTH`: `0` for an empty log, otherwise the
number of characters of the log plus one for the terminating NUL. -/
def infoLogLength (log : String) : GLint :=
  if log.data = [] then 0 else (log.data.length : Int) + 1

/-- The characters OpenGL specifies that `glGet*InfoLog` stores for a buffer of `bufSize`
characters: as much of the log as fits before the terminating NUL, then the NUL. -/
def infoLogFetched (log : String) (bufSize : GLsizei) : String :=
  if bufSize ≤ 0 then "" else ⟨log.data.take (bufSize.toNat - 1) ++ [Char.ofNat 0]⟩

/-- The driver answers the info-log queries on shaders as OpenGL specifies, `infoLog s shader`
being the diagnostic log of `shader` in driver state `s`: a log is a C string, the length
query and the fetch report it, and neither of them changes a log. -/
structure ShaderLogQueries {σ : Type} (c : GLConstants) (d : Driver σ)
    (infoLog : σ → GLuint → String) : Prop where
  c_string : ∀ s shader, Char.ofNat 0 ∉ (infoLog s shader).data
  length : ∀ s shader params,
    (d.glGetShaderiv shader c.GL_INFO_LOG_LENGTH params s).1 = infoLogLength (infoLog s shader)
  length_keeps : ∀ s shader params,
    infoLog (d.glGetShaderiv shader c.GL_INFO_LOG_LENGTH params s).2 = infoLog s
  fetch : ∀ s shader bufSize,
    (d.glGetShaderInfoLog shader bufSize s).1 = infoLogFetched (infoLog s shader) bufSize
  fetch_keeps : ∀ s shader bufSize,
    infoLog (d.glGetShaderInfoLog shader bufSize s).2 = infoLog s

/-- A driver for the examples.  Its state is the number of objects created so far and a new
handle is that number plus one.  Shader `shader` has compile status `compileStatus shader`,
every program has link status `linkStatus`, and every info log is `log`, reported as OpenGL
specifies.  The constants are those of `glad`. -/
def exampleDriver (compileStatus : GLuint → GLint) (linkStatus : GLint) (log : String) :
    Driver Nat where
  glCreateShader _ n := (n + 1, n + 1)
  glShaderSource _ _ n := n
  glCompileShader _ n := n
  glGetShaderiv shader pname _ n :=
    (if pname = glad.GL_COMPILE_STATUS then compileStatus shader else infoLogLength log, n)
  glGetShaderInfoLog _ bufSize n := (infoLogFetched log bufSize, n)
  glCreateProgram n := (n + 1, n + 1)
  glAttachShader _ _ n := n
  glLinkProgram _ n := n
  glGetProgramiv _ pname _ n :=
    (if pname = glad.GL_LINK_STATUS then linkStatus else infoLogLength log, n)
  glGetProgramInfoLog _ bufSize n := (infoLogFetched log bufSize, n)
  glDeleteShader _ n := n
  glDeleteProgram _ n := n

/-- Every compile and every link succeeds. -/
def goodDriver : Driver Nat := exampleDriver (fun _ => 1) 1 ""

/-- Every compile fails, with the log `log`. -/
def failingDriver (log : String) : Driver Nat := exampleDriver (fun _ => 0) 1 log

/-- Every compile succeeds and every link fails. -/
def linkFailingDriver : Driver Nat := exampleDriver (fun _ => 1) 0 "link error"

/-! ## Lemmas on the calls of the two functions -/

section Lemmas
variable {σ : Type}

/-- A compile that the driver reports as successful: `newShader` returns the handle after the
four calls. -/
theorem newShader_ok (c : GLConstants) (d : Driver σ) (shaderType : GLenum) (source : String)
    (w : World σ) (h : (d.compiled c shaderType source w.driver).status ≠ c.GL_FALSE) :
    newShader c d shaderType source w =
      (.ok (d.compiled c shaderType source w.driver).shader,
       ⟨(d.compiled c shaderType source w.driver).state,
        w.calls ++ compileCalls c shaderType (d.compiled c shaderType source w.driver).shader
          source (d.compiled c shaderType source w.driver).status⟩) := by
  simp only [Driver.compiled] at h
  simp only [newShader, glCreateShader, glShaderSource, glCompileShader, glGetShaderiv,
    if_neg h, Driver.compiled, compileCalls, List.append_assoc, List.singleton_append,
    List.cons_append, List.nil_append]

/-- A compile that the driver reports as failed: `newShader` reads the log and throws. -/
theorem newShader_error (c : GLConstants) (d : Driver σ) (shaderType : GLenum) (source : String)
    (w : World σ) (h : (d.compiled c shaderType source w.driver).status = c.GL_FALSE) :
    ∃ tail e w1, ShaderLogRead c (d.compiled c shaderType source w.driver).shader tail e ∧
      newShader c d shaderType source w = (.error e, w1) ∧
      w1.calls = w.calls ++ compileCalls c shaderType
        (d.compiled c shaderType source w.driver).shader source c.GL_FALSE ++ tail := by
  simp only [Driver.compiled] at h
  simp only [newShader, glCreateShader, glShaderSource, glCompileShader, glGetShaderiv,
    glGetShaderInfoLog, if_pos h, Driver.compiled, compileCalls, h]
  generalize d.glGetShaderiv _ c.GL_INFO_LOG_LENGTH 0 _ = q
  generalize resize _ = r
  cases r with
  | none => exact ⟨_, _, _, ⟨q.1, Or.inl ⟨rfl, rfl⟩⟩, rfl, by simp⟩
  | some buffer =>
    simp only [if_true]
    generalize storeLog _ _ _ = log
    exact ⟨_, _, _, ⟨q.1, Or.inr ⟨log, rfl, rfl⟩⟩, rfl, by simp⟩

/-- The part of `newProgram` after two successful compiles (lines 155-178), when the driver
reports the link as successful. -/
theorem newProgram_ok (c : GLConstants) (d : Driver σ) (vs fs : String) (w : World σ)
    (hv : (d.vertex c vs w.driver).status ≠ c.GL_FALSE)
    (hf : (d.fragment c vs fs w.driver).status ≠ c.GL_FALSE)
    (hl : (d.program c vs fs w.driver).status ≠ c.GL_FALSE) :
    newProgram c d vs fs w =
      (.ok (d.program c vs fs w.driver).program,
       ⟨d.glDeleteShader (d.fragment c vs fs w.driver).shader
          (d.glDeleteShader (d.vertex c vs w.driver).shader (d.program c vs fs w.driver).state),
        w.calls ++
          compileCalls c c.GL_VERTEX_SHADER (d.vertex c vs w.driver).shader vs
            (d.vertex c vs w.driver).status ++
          compileCalls c c.GL_FRAGMENT_SHADER (d.fragment c vs fs w.driver).shader fs
            (d.fragment c vs fs w.driver).status ++
          linkCalls c (d.program c vs fs w.driver).program (d.vertex c vs w.driver).shader
            (d.fragment c vs fs w.driver).shader (d.program c vs fs w.driver).status ++
          [.glDeleteShader (d.vertex c vs w.driver).shader,
           .glDeleteShader (d.fragment c vs fs w.driver).shader]⟩) := by
  simp only [Driver.vertex, Driver.fragment, Driver.program] at hv hf hl ⊢
  have hl' := hl
  simp only [Driver.linked] at hl'
  have e1 := newShader_ok c d c.GL_VERTEX_SHADER vs w hv
  have e2 := newShader_ok c d c.GL_FRAGMENT_SHADER fs
    ⟨(d.compiled c c.GL_VERTEX_SHADER vs w.driver).state,
      w.calls ++ compileCalls c c.GL_VERTEX_SHADER
        (d.compiled c c.GL_VERTEX_SHADER vs w.driver).shader vs
        (d.compiled c c.GL_VERTEX_SHADER vs w.driver).status⟩ hf
  simp only [newProgram, e1, e2,
    glCreateProgram, glAttachShader, glLinkProgram, glGetProgramiv, glDeleteShader,
    if_neg hl', Driver.linked, linkCalls, List.append_assoc, List.singleton_append,
    List.cons_append, List.nil_append]

/-- The vertex compile fails: `newProgram` is the failing `newShader` call. -/
theorem newProgram_vertex_error (c : GLConstants) (d : Driver σ) (vs fs : String) (w : World σ)
    (hv : (d.vertex c vs w.driver).status = c.GL_FALSE) :
    ∃ tail e w1, ShaderLogRead c (d.vertex c vs w.driver).shader tail e ∧
      newShader c d c.GL_VERTEX_SHADER vs w = (.error e, w1) ∧
      newProgram c d vs fs w = (.error e, w1) ∧
      w1.calls = w.calls ++ compileCalls c c.GL_VERTEX_SHADER (d.vertex c vs w.driver).shader
        vs c.GL_FALSE ++ tail := by
  obtain ⟨tail, e, w1, hlog, hn, hc⟩ := newShader_error c d c.GL_VERTEX_SHADER vs w hv
  exact ⟨tail, e, w1, hlog, hn, by simp only [newProgram, hn], hc⟩

/-- The vertex compile succeeds and the fragment compile fails. -/
theorem newProgram_fragment_error (c : GLConstants) (d : Driver σ) (vs fs : String)
    (w : World σ) (hv : (d.vertex c vs w.driver).status ≠ c.GL_FALSE)
    (hf : (d.fragment c vs fs w.driver).status = c.GL_FALSE) :
    ∃ tail e w2, ShaderLogRead c (d.fragment c vs fs w.driver).shader tail e ∧
      newProgram c d vs fs w = (.error e, w2) ∧
      w2.calls = w.calls ++
        compileCalls c c.GL_VERTEX_SHADER (d.vertex c vs w.driver).shader vs
          (d.vertex c vs w.driver).status ++
        compileCalls c c.GL_FRAGMENT_SHADER (d.fragment c vs fs w.driver).shader fs
          c.GL_FALSE ++ tail := by
  simp only [Driver.vertex, Driver.fragment] at hv hf ⊢
  obtain ⟨tail, e, w2, hlog, hn, hc⟩ := newShader_error c d c.GL_FRAGMENT_SHADER fs
    ⟨(d.compiled c c.GL_VERTEX_SHADER vs w.driver).state,
      w.calls ++ compileCalls c c.GL_VERTEX_SHADER
        (d.compiled c c.GL_VERTEX_SHADER vs w.driver).shader vs
        (d.compiled c c.GL_VERTEX_SHADER vs w.driver).status⟩ hf
  exact ⟨tail, e, w2, hlog, by simp only [newProgram, newShader_ok c d _ vs w hv, hn], hc⟩

/-- Both compiles succeed and the link fails. -/
theorem newProgram_link_error (c : GLConstants) (d : Driver σ) (vs fs : String) (w : World σ)
    (hv : (d.vertex c vs w.driver).status ≠ c.GL_FALSE)
    (hf : (d.fragment c vs fs w.driver).status ≠ c.GL_FALSE)
    (hl : (d.program c vs fs w.driver).status = c.GL_FALSE) :
    ∃ tail e w3, ProgramLogRead c (d.program c vs fs w.driver).program tail e ∧
      newProgram c d vs fs w = (.error e, w3) ∧
      w3.calls = w.calls ++
        compileCalls c c.GL_VERTEX_SHADER (d.vertex c vs w.driver).shader vs
          (d.vertex c vs w.driver).status ++
        compileCalls c c.GL_FRAGMENT_SHADER (d.fragment c vs fs w.driver).shader fs
          (d.fragment c vs fs w.driver).status ++
        linkCalls c (d.program c vs fs w.driver).program (d.vertex c vs w.driver).shader
          (d.fragment c vs fs w.driver).shader c.GL_FALSE ++ tail := by
  simp only [Driver.vertex, Driver.fragment, Driver.program] at hv hf hl ⊢
  have hl' := hl
  simp only [Driver.linked] at hl'
  have e1 := newShader_ok c d c.GL_VERTEX_SHADER vs w hv
  have e2 := newShader_ok c d c.GL_FRAGMENT_SHADER fs
    ⟨(d.compiled c c.GL_VERTEX_SHADER vs w.driver).state,
      w.calls ++ compileCalls c c.GL_VERTEX_SHADER
        (d.compiled c c.GL_VERTEX_SHADER vs w.driver).shader vs
        (d.compiled c c.GL_VERTEX_SHADER vs w.driver).status⟩ hf
  simp only [newProgram, e1, e2,
    glCreateProgram, glAttachShader, glLinkProgram, glGetProgramiv, glGetProgramInfoLog,
    hl', if_true, Driver.linked, linkCalls]
  generalize d.glGetProgramiv _ c.GL_INFO_LOG_LENGTH 0 _ = q
  generalize resize _ = r
  cases r with
  | none => exact ⟨_, _, _, ⟨q.1, Or.inl ⟨rfl, rfl⟩⟩, rfl, by simp⟩
  | some buffer =>
    simp only []
    generalize storeLog _ _ _ = log
    exact ⟨_, _, _, ⟨q.1, Or.inr ⟨log, rfl, rfl⟩⟩, rfl, by simp⟩

end Lemmas
/-! ## Lemmas on the observations of a list of calls -/

theorem releases_append (a b : List Call) : releases (a ++ b) = releases a ++ releases b :=
  List.filter_append ..

theorem releases_compileCalls (c : GLConstants) (shaderType : GLenum) (id : GLuint)
    (source : String) (status : GLint) :
    releases (compileCalls c shaderType id source status) = [] := by
  simp [releases, compileCalls, Call.isRelease]

theorem releases_linkCalls (c : GLConstants) (p v f : GLuint) (status : GLint) :
    releases (linkCalls c p v f status) = [] := by
  simp [releases, linkCalls, Call.isRelease]

theorem shaderLogRead_releases {c : GLConstants} {id : GLuint} {tail : List Call}
    {e : Exception} (h : ShaderLogRead c id tail e) : releases tail = [] := by
  obtain ⟨n, ⟨rfl, -⟩ | ⟨log, rfl, -⟩⟩ := h <;> simp [AmdErrorDemo.releases, Call.isRelease]

theorem programLogRead_releases {c : GLConstants} {p : GLuint} {tail : List Call}
    {e : Exception} (h : ProgramLogRead c p tail e) : releases tail = [] := by
  obtain ⟨n, ⟨rfl, -⟩ | ⟨log, rfl, -⟩⟩ := h <;> simp [AmdErrorDemo.releases, Call.isRelease]

/-! ## Lemmas on the log that a failed compile throws -/

/-- The buffer that `newShader` hands to `std::runtime_error` reads, as a C string, as the
driver's log, when the driver reports the log as OpenGL specifies. -/
theorem c_str_storeLog (log buffer : String) (h0 : Char.ofNat 0 ∉ log.data)
    (hb : resize (infoLogLength log + 1) = some buffer) :
    c_str (storeLog buffer (infoLogLength log) (infoLogFetched log (infoLogLength log))) =
      log := by
  have hp : ∀ a ∈ log.data, (decide (a ≠ Char.ofNat 0)) = true := by
    intro a ha
    simp only [decide_eq_true_eq]
    rintro rfl
    exact h0 ha
  by_cases hl : log.data = []
  · have hn : infoLogLength log = 0 := by simp [infoLogLength, hl]
    rw [hn] at hb ⊢
    simp only [resize] at hb
    simp only [zero_add, show ¬ ((1 : Int) < 0) by omega, if_false, Option.some.injEq] at hb
    subst hb
    apply String.ext
    simp [c_str, storeLog, infoLogFetched, hl]
  · have hn : infoLogLength log = (log.data.length : Int) + 1 := by simp [infoLogLength, hl]
    rw [hn] at hb ⊢
    simp only [resize] at hb
    rw [if_neg (show ¬ ((log.data.length : Int) + 1 + 1 < 0) by omega)] at hb
    simp only [Option.some.injEq] at hb
    subst hb
    have e1 : ((log.data.length : Int) + 1).toNat = log.data.length + 1 := by omega
    have e2 : ((log.data.length : Int) + 1 + 1).toNat = log.data.length + 2 := by omega
    apply String.ext
    simp only [c_str, storeLog, infoLogFetched, e1, e2]
    rw [if_neg (show ¬ ((log.data.length : Int) + 1 ≤ 0) by omega)]
    simp only [Nat.add_sub_cancel, List.take_length]
    rw [List.take_of_length_le (by simp), List.append_assoc,
      List.takeWhile_append_of_pos hp]
    simp


theorem infoLogLength_nonneg (log : String) : 0 ≤ infoLogLength log := by
  unfold infoLogLength
  split_ifs
  · exact le_refl _
  · exact Int.add_nonneg (Int.ofNat_nonneg _) (by decide)

/-- The example driver reports its log as OpenGL specifies. -/
theorem failingDriver_logQueries (log : String) (h : Char.ofNat 0 ∉ log.data) :
    ShaderLogQueries glad (failingDriver log) (fun _ _ => log) where
  c_string := fun _ _ => h
  length := fun _ _ _ => by
    show (if glad.GL_INFO_LOG_LENGTH = glad.GL_COMPILE_STATUS then (0 : GLint)
      else infoLogLength log) = infoLogLength log
    rw [if_neg (by decide)]
  length_keeps := fun _ _ _ => rfl
  fetch := fun _ _ _ => rfl
  fetch_keeps := fun _ _ _ => rfl

theorem wrapInt32_of_range (x : Int) (h0 : 0 ≤ x) (h1 : x < 2147483648) : wrapInt32 x = x := by
  unfold wrapInt32
  omega

/-- A failed compile whose log buffer can be allocated: the exception and the world, in full. -/
theorem newShader_error_eq {σ : Type} (c : GLConstants) (d : Driver σ) (shaderType : GLenum)
    (source : String) (w : World σ) (buffer : String)
    (h : (d.compiled c shaderType source w.driver).status = c.GL_FALSE)
    (hr : resize (wrapInt32 ((d.lengthQueried c shaderType source w.driver).1 + 1)) =
      some buffer) :
    newShader c d shaderType source w =
      (.error (.runtime_error (storeLog buffer (d.lengthQueried c shaderType source w.driver).1
          (d.logFetched c shaderType source w.driver).1)),
       ⟨(d.logFetched c shaderType source w.driver).2,
        w.calls ++ compileCalls c shaderType (d.compiled c shaderType source w.driver).shader
          source c.GL_FALSE ++
          [.glGetShaderiv (d.compiled c shaderType source w.driver).shader
             c.GL_INFO_LOG_LENGTH (d.lengthQueried c shaderType source w.driver).1,
           .glGetShaderInfoLog (d.compiled c shaderType source w.driver).shader
             (d.lengthQueried c shaderType source w.driver).1
             (storeLog buffer (d.lengthQueried c shaderType source w.driver).1
               (d.logFetched c shaderType source w.driver).1)]⟩) := by
  simp only [Driver.logFetched, Driver.lengthQueried, Driver.compiled] at h hr ⊢
  simp only [newShader, glCreateShader, glShaderSource, glCompileShader, glGetShaderiv,
    glGetShaderInfoLog, h, if_true, hr, compileCalls, List.append_assoc, List.singleton_append,
    List.cons_append, List.nil_append]
/-! ## Lemmas on the text of `debugCallback` -/

theorem digitChar_ne_newline (n : Nat) : Nat.digitChar n ≠ '\n' := by
  rcases Nat.lt_or_ge n 16 with h | h
  · interval_cases n <;> decide
  · unfold Nat.digitChar
    iterate 16 rw [if_neg (by omega)]
    decide

theorem toDigitsCore_no_newline (b : Nat) : ∀ (fuel n : Nat) (acc : List Char),
    '\n' ∉ acc → '\n' ∉ Nat.toDigitsCore b fuel n acc
  | 0, _, acc, h => by simpa [Nat.toDigitsCore] using h
  | fuel + 1, n, acc, h => by
    have hacc : '\n' ∉ Nat.digitChar (n % b) :: acc := by
      simp only [List.mem_cons, not_or]
      exact ⟨fun h' => digitChar_ne_newline _ h'.symm, h⟩
    simp only [Nat.toDigitsCore]
    split_ifs
    · exact hacc
    · exact toDigitsCore_no_newline b fuel _ _ hacc

/-- The decimal text of a number has no line break. -/
theorem toString_nat_singleLine (n : Nat) : SingleLine (toString n) := by
  show '\n' ∉ (Nat.repr n).data
  simp only [Nat.repr, Nat.toDigits, List.asString]
  exact toDigitsCore_no_newline 10 _ _ [] (by simp)

theorem sourceString_mem (c : GLConstants) (source : GLenum) :
    debugCallback.sourceString c source ∈ sourceLabels := by
  unfold debugCallback.sourceString
  split_ifs <;> decide

theorem typeString_mem (c : GLConstants) (type : GLenum) :
    debugCallback.typeString c type ∈ typeLabels := by
  unfold debugCallback.typeString
  split_ifs <;> decide

theorem severityString_mem (c : GLConstants) (severity : GLenum) :
    debugCallback.severityString c severity ∈ severityLabels := by
  unfold debugCallback.severityString
  split_ifs <;> decide

theorem sourceString_other (c : GLConstants) (source : GLenum)
    (h : ¬ Recognized (sourceTable c) source) : debugCallback.sourceString c source = "Other" := by
  simp only [Recognized, sourceTable, List.map, List.mem_cons, List.mem_singleton,
    List.not_mem_nil, or_false, not_or] at h
  simp [debugCallback.sourceString, h]

theorem typeString_other (c : GLConstants) (type : GLenum)
    (h : ¬ Recognized (typeTable c) type) : debugCallback.typeString c type = "Other" := by
  simp only [Recognized, typeTable, List.map, List.mem_cons, List.mem_singleton,
    List.not_mem_nil, or_false, not_or] at h
  simp [debugCallback.typeString, h]

theorem severityString_other (c : GLConstants) (severity : GLenum)
    (h : ¬ Recognized (severityTable c) severity) :
    debugCallback.severityString c severity = "Other" := by
  simp only [Recognized, severityTable, List.map, List.mem_cons, List.mem_singleton,
    List.not_mem_nil, or_false, not_or] at h
  simp [debugCallback.severityString, h]

@[simp] theorem put_basefield (os : OStream) (s : String) :
    (os.put s).basefield = os.basefield := by
  unfold OStream.put
  split_ifs <;> rfl

@[simp] theorem put_failed (os : OStream) (s : String) : (os.put s).failed = os.failed := by
  unfold OStream.put
  split_ifs <;> rfl

theorem put_text (os : OStream) (s : String) (h : os.failed = false) :
    (os.put s).text = os.text ++ s := by
  simp [OStream.put, h]

/-- The text `debugCallback` appends to a stream without error: the five lines of the record
in the stream's number base, each ended by a line break, and one more line break. -/
theorem debugCallback_text (c : GLConstants) (source type : GLenum) (id : GLuint)
    (severity : GLenum) (length : GLsizei) (message : String) (userParam : Nat)
    (cerr : OStream) (h : cerr.failed = false) :
    (debugCallback c source type id severity length message userParam cerr).text =
      cerr.text ++ (unlines (recordLinesIn cerr.basefield (debugCallback.typeString c type)
        (debugCallback.sourceString c source) (debugCallback.severityString c severity)
        id message) ++ "\n") := by
  simp only [debugCallback, endl, OStream.putUnsigned, put_text, put_failed, put_basefield, h,
    unlines, recordLinesIn, List.foldr, String.append_assoc, String.append_empty]

/-- The text `debugCallback` writes to `std::cerr` as the program finds it. -/
theorem debugCallback_eq (c : GLConstants) (source type : GLenum) (id : GLuint)
    (severity : GLenum) (length : GLsizei) (message : String) (userParam : Nat) :
    (debugCallback c source type id severity length message userParam OStream.fresh).text =
      unlines (recordLines (debugCallback.typeString c type)
        (debugCallback.sourceString c source) (debugCallback.severityString c severity)
        id message) ++ "\n" := by
  rw [debugCallback_text _ _ _ _ _ _ _ _ _ rfl]
  exact String.empty_append _

theorem splitLines_line (l rest : List Char) (h : '\n' ∉ l) :
    splitLines (l ++ '\n' :: rest) = l :: splitLines rest := by
  induction l with
  | nil => simp [splitLines]
  | cons a l ih =>
    simp only [List.mem_cons, not_or] at h
    have ha : a ≠ '\n' := fun e => h.1 e.symm
    have ih := ih h.2
    rw [List.cons_append]
    simp only [splitLines, if_neg ha]
    rw [ih]

/-- Lines without a line break that are not empty are found again in the text made of them. -/
theorem textLines_unlines (ls : List String)
    (h : ∀ l ∈ ls, SingleLine l ∧ l.data ≠ []) : textLines (unlines ls ++ "\n") = ls := by
  induction ls with
  | nil => decide
  | cons l ls ih =>
    have hl := h l (List.mem_cons_self _ _)
    have ih := ih (fun l' hl' => h l' (List.mem_cons_of_mem _ hl'))
    have e : (unlines (l :: ls) ++ "\n").data = l.data ++ '\n' :: (unlines ls ++ "\n").data := by
      simp [unlines, String.data_append]
    have hne : l.data.isEmpty = false := by
      cases hd : l.data with
      | nil => exact absurd hd hl.2
      | cons _ _ => rfl
    simp only [textLines] at ih ⊢
    rw [e, splitLines_line _ _ hl.1, List.filter_cons_of_pos (by simp [hne]), List.map_cons, ih]

theorem singleLine_append (a b : String) (ha : SingleLine a) (hb : SingleLine b) :
    SingleLine (a ++ b) := by
  simp only [SingleLine, String.data_append, List.mem_append, not_or] at *
  exact ⟨ha, hb⟩

/-- The lines of a record have no line break when the message has none, and are not empty. -/
theorem recordLines_singleLine (c : GLConstants) (source type severity : GLenum) (id : GLuint)
    (message : String) (hm : SingleLine message) :
    ∀ l ∈ recordLines (debugCallback.typeString c type) (debugCallback.sourceString c source)
      (debugCallback.severityString c severity) id message, SingleLine l ∧ l.data ≠ [] := by
  have ht : SingleLine (debugCallback.typeString c type) := by
    unfold debugCallback.typeString
    split_ifs <;> decide
  have hs : SingleLine (debugCallback.sourceString c source) := by
    unfold debugCallback.sourceString
    split_ifs <;> decide
  have hv : SingleLine (debugCallback.severityString c severity) := by
    unfold debugCallback.severityString
    split_ifs <;> decide
  intro l hl
  simp only [recordLines, List.mem_cons, List.mem_singleton, List.not_mem_nil, or_false] at hl
  rcases hl with rfl | rfl | rfl | rfl | rfl
  · exact ⟨singleLine_append _ _ (by decide) ht, by simp [String.data_append]⟩
  · exact ⟨singleLine_append _ _ (by decide) hs, by simp [String.data_append]⟩
  · exact ⟨singleLine_append _ _ (by decide) hv, by simp [String.data_append]⟩
  · exact ⟨singleLine_append _ _ (by decide) (toString_nat_singleLine id),
      by simp [String.data_append]⟩
  · exact ⟨singleLine_append _ _ (by decide) hm, by simp [String.data_append]⟩

/-- C6, as it is stated, fails.  For the message `"a\nb"` the text that `debugCallback`
writes has six non-empty lines, so it is not the five-line block of the record. -/
theorem debugCallback_message_with_line_break :
    textLines (debugCallback glad glad.GL_DEBUG_SOURCE_API glad.GL_DEBUG_TYPE_ERROR 42
        glad.GL_DEBUG_SEVERITY_HIGH 3 "a\nb" 0 OStream.fresh).text =
      ["Type:Error", "Source: OpenGL API", "Severity: High", "ID: 42", "Message: a", "b"] ∧
    textLines (debugCallback glad glad.GL_DEBUG_SOURCE_API glad.GL_DEBUG_TYPE_ERROR 42
        glad.GL_DEBUG_SEVERITY_HIGH 3 "a\nb" 0 OStream.fresh).text ≠
      recordLines "Error" "OpenGL API" "High" 42 "a\nb" := by
  decide

/-- C6, amended.  For all codes, id and message the text written by `debugCallback` is the
Type line with the type label, the Source line with the source label, the Severity line with
the severity label, the ID line with the id in decimal and the Message line with the message,
in this order, each ended by a line break, and then one empty line.  When the message has no
line break in it, the non-empty lines of the text are exactly these five.  For
`GL_DEBUG_SOURCE_API`, `GL_DEBUG_TYPE_ERROR`, `GL_DEBUG_SEVERITY_HIGH`, id 42 and message
`"x"` the lines carry "Error", "OpenGL API", "High", "42" and "x". -/
theorem debugCallback_record (c : GLConstants) (source type : GLenum) (id : GLuint)
    (severity : GLenum) (length : GLsizei) (message : String) (userParam : Nat) :
    (debugCallback c source type id severity length message userParam OStream.fresh).text =
      unlines (recordLines (debugCallback.typeString c type)
        (debugCallback.sourceString c source) (debugCallback.severityString c severity)
        id message) ++ "\n" ∧
    (SingleLine message →
      textLines (debugCallback c source type id severity length message userParam
          OStream.fresh).text =
        recordLines (debugCallback.typeString c type) (debugCallback.sourceString c source)
          (debugCallback.severityString c severity) id message) ∧
    (debugCallback c c.GL_DEBUG_SOURCE_API c.GL_DEBUG_TYPE_ERROR 42 c.GL_DEBUG_SEVERITY_HIGH
        length "x" userParam OStream.fresh).text =
      "Type:Error\nSource: OpenGL API\nSeverity: High\nID: 42\nMessage: x\n\n" := by
  refine ⟨debugCallback_eq .., ?_, ?_⟩
  · intro hm
    rw [debugCallback_eq]
    exact textLines_unlines _ (recordLines_singleLine c source type severity id message hm)
  · rw [debugCallback_eq]
    simp only [debugCallback.typeString, debugCallback.sourceString,
      debugCallback.severityString, if_true]
    decide

/-- Witness of C6: the message `"x"` has no line break, and the text has the five lines. -/
theorem debugCallback_record_witness :
    SingleLine "x" ∧
    textLines (debugCallback glad glad.GL_DEBUG_SOURCE_API glad.GL_DEBUG_TYPE_ERROR 42
        glad.GL_DEBUG_SEVERITY_HIGH 1 "x" 0 OStream.fresh).text =
      ["Type:Error", "Source: OpenGL API", "Severity: High", "ID: 42", "Message: x"] :=
  ⟨by decide, (debugCallback_record glad glad.GL_DEBUG_SOURCE_API glad.GL_DEBUG_TYPE_ERROR 42
    glad.GL_DEBUG_SEVERITY_HIGH 1 "x" 0).2.1 (by decide)⟩

/-- C7.  The three label lookups of `debugCallback` equal the reference tables: a code that a
table lists gets the label of its row, every other code gets "Other", and so every label is
one of the six source labels, nine type labels and five severity labels. -/
theorem labels_equal_reference_tables (c : GLConstants) (hc : c.DistinctCases) :
    (∀ code label, (code, label) ∈ sourceTable c →
      debugCallback.sourceString c code = label) ∧
    (∀ code, ¬ Recognized (sourceTable c) code → debugCallback.sourceString c code = "Other") ∧
    (∀ code label, (code, label) ∈ typeTable c → debugCallback.typeString c code = label) ∧
    (∀ code, ¬ Recognized (typeTable c) code → debugCallback.typeString c code = "Other") ∧
    (∀ code label, (code, label) ∈ severityTable c →
      debugCallback.severityString c code = label) ∧
    (∀ code, ¬ Recognized (severityTable c) code →
      debugCallback.severityString c code = "Other") ∧
    (∀ code, debugCallback.sourceString c code ∈ sourceLabels) ∧
    (∀ code, debugCallback.typeString c code ∈ typeLabels) ∧
    (∀ code, debugCallback.severityString c code ∈ severityLabels) := by
  obtain ⟨hs, ht, hv⟩ := hc
  simp only [List.nodup_cons, List.mem_cons, List.mem_singleton, List.not_mem_nil, or_false,
    not_or, List.nodup_nil, and_true, not_false_eq_true] at hs ht hv
  refine ⟨?_, sourceString_other c, ?_, typeString_other c, ?_, severityString_other c,
    sourceString_mem c, typeString_mem c, severityString_mem c⟩
  · have key : ∀ row ∈ sourceTable c, debugCallback.sourceString c row.1 = row.2 := by
      simp [sourceTable, debugCallback.sourceString, hs, eq_comm]
    exact fun code label h => key (code, label) h
  · have key : ∀ row ∈ typeTable c, debugCallback.typeString c row.1 = row.2 := by
      simp [typeTable, debugCallback.typeString, ht, eq_comm]
    exact fun code label h => key (code, label) h
  · have key : ∀ row ∈ severityTable c, debugCallback.severityString c row.1 = row.2 := by
      simp [severityTable, debugCallback.severityString, hv, eq_comm]
    exact fun code label h => key (code, label) h

/-- Witness of C7: the constants of `glad` are pairwise different, and the tables hold. -/
theorem labels_equal_reference_tables_witness :
    glad.DistinctCases ∧
    debugCallback.typeString glad glad.GL_DEBUG_TYPE_PUSH_GROUP = "Push group" ∧
    debugCallback.sourceString glad 7 = "Other" :=
  ⟨by decide,
   (labels_equal_reference_tables glad (by decide)).2.2.1 glad.GL_DEBUG_TYPE_PUSH_GROUP
     "Push group" (by decide),
   (labels_equal_reference_tables glad (by decide)).2.1 7 (by decide)⟩

/-- C8.  The three fields are classified independently.  In the text of `debugCallback` the
source label is a function of the source code alone, the type label of the type code alone and
the severity label of the severity code alone.  So a source, type or severity code that its
table does not list puts "Other" on that line and leaves the two other labels, the id and the
message as they are.  This holds on every stream without error, whatever was written to it
before and whatever its number base. -/
theorem unrecognized_code_changes_one_label (c : GLConstants) (source type : GLenum)
    (id : GLuint) (severity : GLenum) (length : GLsizei) (message : String) (userParam : Nat)
    (cerr : OStream) (other : GLenum) (hc : cerr.failed = false) :
    (debugCallback c source type id severity length message userParam cerr).text =
      cerr.text ++ (unlines (recordLinesIn cerr.basefield (debugCallback.typeString c type)
        (debugCallback.sourceString c source) (debugCallback.severityString c severity)
        id message) ++ "\n") ∧
    (¬ Recognized (sourceTable c) other →
      (debugCallback c other type id severity length message userParam cerr).text =
        cerr.text ++ (unlines (recordLinesIn cerr.basefield (debugCallback.typeString c type)
          "Other" (debugCallback.severityString c severity) id message) ++ "\n")) ∧
    (¬ Recognized (typeTable c) other →
      (debugCallback c source other id severity length message userParam cerr).text =
        cerr.text ++ (unlines (recordLinesIn cerr.basefield "Other"
          (debugCallback.sourceString c source) (debugCallback.severityString c severity)
          id message) ++ "\n")) ∧
    (¬ Recognized (severityTable c) other →
      (debugCallback c source type id other length message userParam cerr).text =
        cerr.text ++ (unlines (recordLinesIn cerr.basefield (debugCallback.typeString c type)
          (debugCallback.sourceString c source) "Other" id message) ++ "\n")) := by
  refine ⟨debugCallback_text _ _ _ _ _ _ _ _ _ hc, fun h => ?_, fun h => ?_, fun h => ?_⟩
  · rw [debugCallback_text _ _ _ _ _ _ _ _ _ hc, sourceString_other c other h]
  · rw [debugCallback_text _ _ _ _ _ _ _ _ _ hc, typeString_other c other h]
  · rw [debugCallback_text _ _ _ _ _ _ _ _ _ hc, severityString_other c other h]

/-- Witness of C8: the code 7 is in none of the tables of `glad`; as the severity code it
changes the Severity line alone. -/
theorem unrecognized_code_changes_one_label_witness :
    OStream.fresh.failed = false ∧ ¬ Recognized (severityTable glad) 7 ∧
    (debugCallback glad glad.GL_DEBUG_SOURCE_THIRD_PARTY glad.GL_DEBUG_TYPE_MARKER 5 7 1 "m" 0
        OStream.fresh).text =
      "" ++ (unlines (recordLines "Marker" "Third Party" "Other" 5 "m") ++ "\n") :=
  ⟨rfl, by decide,
   (unrecognized_code_changes_one_label glad glad.GL_DEBUG_SOURCE_THIRD_PARTY
     glad.GL_DEBUG_TYPE_MARKER 5 glad.GL_DEBUG_SEVERITY_LOW 1 "m" 0 OStream.fresh 7
     rfl).2.2.2 (by decide)⟩

/-- C1.  For every driver behaviour and every pair of sources, `newProgram` returns a program
handle if and only if the vertex compile status, the fragment compile status and the link
status the driver reports all indicate success, and the handle is then the one the driver
gave for the program linked from the two shaders; in every other case it throws and returns
no handle. -/
theorem newProgram_returns_iff_all_succeed {σ : Type} (c : GLConstants) (d : Driver σ)
    (vs fs : String) (s : σ) :
    (∀ program, (newProgram c d vs fs (World.init s)).1 = .ok program ↔
      AllSucceed c d vs fs s ∧ program = (d.program c vs fs s).program) ∧
    ((∃ e, (newProgram c d vs fs (World.init s)).1 = .error e) ↔ ¬ AllSucceed c d vs fs s) := by
  by_cases hv : (d.vertex c vs s).status = c.GL_FALSE
  · obtain ⟨tail, e, w1, -, -, hp, -⟩ := newProgram_vertex_error c d vs fs (World.init s) hv
    rw [hp]
    simp [AllSucceed, hv]
  by_cases hf : (d.fragment c vs fs s).status = c.GL_FALSE
  · obtain ⟨tail, e, w2, -, hp, -⟩ := newProgram_fragment_error c d vs fs (World.init s) hv hf
    rw [hp]
    simp [AllSucceed, hf]
  by_cases hl : (d.program c vs fs s).status = c.GL_FALSE
  · obtain ⟨tail, e, w3, -, hp, -⟩ := newProgram_link_error c d vs fs (World.init s) hv hf hl
    rw [hp]
    simp [AllSucceed, hl]
  · rw [newProgram_ok c d vs fs (World.init s) hv hf hl]
    have hs : (World.init s).driver = s := rfl
    simp [AllSucceed, hv, hf, hl, hs, eq_comm]

/-- C2.  When the driver reports the vertex shader's compile status as failure, `newProgram`
throws exactly the exception that `newShader` throws for the vertex stage and stops where
that call stops.  Its calls are the four calls of the vertex compile and the reading of the
log: the only shader created, filled or compiled is the vertex shader, no shader is created
for the fragment stage, and no program is created, attached to or linked. -/
theorem newProgram_vertex_failure {σ : Type} (c : GLConstants) (d : Driver σ) (vs fs : String)
    (s : σ) (h : (d.vertex c vs s).status = c.GL_FALSE) :
    ∃ (e : Exception) (w1 : World σ) (tail : List Call),
      newShader c d c.GL_VERTEX_SHADER vs (World.init s) = (.error e, w1) ∧
      newProgram c d vs fs (World.init s) = (.error e, w1) ∧
      w1.calls = compileCalls c c.GL_VERTEX_SHADER (d.vertex c vs s).shader vs c.GL_FALSE ++
        tail ∧
      ShaderLogRead c (d.vertex c vs s).shader tail e ∧
      w1.calls.filter Call.isShaderBuild =
        [.glCreateShader c.GL_VERTEX_SHADER (d.vertex c vs s).shader,
         .glShaderSource (d.vertex c vs s).shader (c_str vs),
         .glCompileShader (d.vertex c vs s).shader] ∧
      (c.GL_VERTEX_SHADER ≠ c.GL_FRAGMENT_SHADER →
        ∀ id, Call.glCreateShader c.GL_FRAGMENT_SHADER id ∉ w1.calls) ∧
      w1.calls.filter Call.isProgramBuild = [] := by
  obtain ⟨tail, e, w1, hlog, hv, hp, hc⟩ := newProgram_vertex_error c d vs fs (World.init s) h
  have hi : (World.init s).calls = [] := rfl
  have hs : (World.init s).driver = s := rfl
  rw [hi, List.nil_append, hs] at hc
  rw [hs] at hlog
  refine ⟨e, w1, tail, hv, hp, hc, hlog, ?_, ?_, ?_⟩ <;>
    obtain ⟨n, ⟨rfl, -⟩ | ⟨log, rfl, -⟩⟩ := hlog <;>
    simp [hc, compileCalls, Call.isShaderBuild, Call.isProgramBuild]
  all_goals exact fun hne h => hne h.symm

/-- Witness of C2: a driver for which every compile fails. -/
theorem newProgram_vertex_failure_witness :
    ((failingDriver "bad").vertex glad "v" 0).status = glad.GL_FALSE ∧
    ∃ (e : Exception) (w1 : World Nat) (tail : List Call),
      newShader glad (failingDriver "bad") glad.GL_VERTEX_SHADER "v" (World.init 0) =
        (.error e, w1) ∧
      newProgram glad (failingDriver "bad") "v" "f" (World.init 0) = (.error e, w1) ∧
      w1.calls = compileCalls glad glad.GL_VERTEX_SHADER
        ((failingDriver "bad").vertex glad "v" 0).shader "v" glad.GL_FALSE ++ tail ∧
      ShaderLogRead glad ((failingDriver "bad").vertex glad "v" 0).shader tail e ∧
      w1.calls.filter Call.isShaderBuild =
        [.glCreateShader glad.GL_VERTEX_SHADER ((failingDriver "bad").vertex glad "v" 0).shader,
         .glShaderSource ((failingDriver "bad").vertex glad "v" 0).shader (c_str "v"),
         .glCompileShader ((failingDriver "bad").vertex glad "v" 0).shader] ∧
      (glad.GL_VERTEX_SHADER ≠ glad.GL_FRAGMENT_SHADER →
        ∀ id, Call.glCreateShader glad.GL_FRAGMENT_SHADER id ∉ w1.calls) ∧
      w1.calls.filter Call.isProgramBuild = [] :=
  ⟨by decide, newProgram_vertex_failure glad (failingDriver "bad") "v" "f" 0 (by decide)⟩

/-- C3.  When the driver reports both compiles and the link as successful, `newProgram`
returns the handle that its program-creation request obtained.  Its calls are the two
compiles, the building of the program, and then, after the link request and the link-status
query, the release of the vertex shader and the release of the fragment shader it created.
These two are its only release calls, so the program it returns is not released. -/
theorem newProgram_success {σ : Type} (c : GLConstants) (d : Driver σ) (vs fs : String) (s : σ)
    (h : AllSucceed c d vs fs s) :
    newProgram c d vs fs (World.init s) =
      (.ok (d.program c vs fs s).program,
       ⟨d.glDeleteShader (d.fragment c vs fs s).shader
          (d.glDeleteShader (d.vertex c vs s).shader (d.program c vs fs s).state),
        compileCalls c c.GL_VERTEX_SHADER (d.vertex c vs s).shader vs
            (d.vertex c vs s).status ++
          compileCalls c c.GL_FRAGMENT_SHADER (d.fragment c vs fs s).shader fs
            (d.fragment c vs fs s).status ++
          linkCalls c (d.program c vs fs s).program (d.vertex c vs s).shader
            (d.fragment c vs fs s).shader (d.program c vs fs s).status ++
          [.glDeleteShader (d.vertex c vs s).shader,
           .glDeleteShader (d.fragment c vs fs s).shader]⟩) ∧
    releases (newProgram c d vs fs (World.init s)).2.calls =
      [.glDeleteShader (d.vertex c vs s).shader,
       .glDeleteShader (d.fragment c vs fs s).shader] := by
  obtain ⟨hv, hf, hl⟩ := h
  have e := newProgram_ok c d vs fs (World.init s) hv hf hl
  have hi : (World.init s).calls = [] := rfl
  have hs : (World.init s).driver = s := rfl
  rw [hi, hs] at e
  simp only [List.nil_append] at e
  refine ⟨e, ?_⟩
  rw [e]
  simp only [releases_append, releases_compileCalls, releases_linkCalls, List.nil_append]
  rfl

/-- Witness of C3: a driver for which everything succeeds. -/
theorem newProgram_success_witness :
    AllSucceed glad goodDriver "v" "f" 0 ∧
    (newProgram glad goodDriver "v" "f" (World.init 0)).1 = .ok 3 ∧
    releases (newProgram glad goodDriver "v" "f" (World.init 0)).2.calls =
      [.glDeleteShader 1, .glDeleteShader 2] :=
  ⟨by decide,
   congrArg Prod.fst (newProgram_success glad goodDriver "v" "f" 0 (by decide)).1,
   (newProgram_success glad goodDriver "v" "f" 0 (by decide)).2⟩

/-- C4.  For every stage and source text `newShader` issues, in this order, the creation of a
shader of the given stage, the submission of the source, the compile request and the
compile-status query.  If the status the driver reports is not failure, nothing more is
called and the handle of the creation request is returned; an exception is thrown only if the
status is failure. -/
theorem newShader_calls_in_order {σ : Type} (c : GLConstants) (d : Driver σ)
    (shaderType : GLenum) (source : String) (s : σ) :
    ∃ (id : GLuint) (status : GLint) (rest : List Call),
      (newShader c d shaderType source (World.init s)).2.calls =
        [.glCreateShader shaderType id, .glShaderSource id (c_str source),
         .glCompileShader id, .glGetShaderiv id c.GL_COMPILE_STATUS status] ++ rest ∧
      (status ≠ c.GL_FALSE →
        (newShader c d shaderType source (World.init s)).1 = .ok id ∧ rest = []) ∧
      (∀ e, (newShader c d shaderType source (World.init s)).1 = .error e →
        status = c.GL_FALSE) := by
  have hi : (World.init s).calls = [] := rfl
  by_cases hs : (d.compiled c shaderType source (World.init s).driver).status = c.GL_FALSE
  · obtain ⟨tail, e, w1, -, hv, hc⟩ := newShader_error c d shaderType source (World.init s) hs
    refine ⟨(d.compiled c shaderType source (World.init s).driver).shader, c.GL_FALSE, tail, ?_,
      fun hne => absurd rfl hne, fun _ _ => rfl⟩
    rw [hv]
    simpa [hi, compileCalls] using hc
  · have hv := newShader_ok c d shaderType source (World.init s) hs
    refine ⟨(d.compiled c shaderType source (World.init s).driver).shader,
      (d.compiled c shaderType source (World.init s).driver).status, [], ?_,
      fun _ => ⟨by rw [hv], rfl⟩, fun e he => ?_⟩
    · rw [hv]
      simp [hi, compileCalls]
    · rw [hv] at he
      simp at he

/-- C10.  No driver object is released on a failure path.  When `newShader` throws, and when
`newProgram` throws (the vertex compile, the fragment compile or the link failed), none of
the calls issued is a release of a shader or of a program, so every handle created before the
failure stays unreleased. -/
theorem no_release_on_failure {σ : Type} (c : GLConstants) (d : Driver σ)
    (shaderType : GLenum) (source vs fs : String) (s : σ) :
    (∀ e, (newShader c d shaderType source (World.init s)).1 = .error e →
      releases (newShader c d shaderType source (World.init s)).2.calls = []) ∧
    (∀ e, (newProgram c d vs fs (World.init s)).1 = .error e →
      releases (newProgram c d vs fs (World.init s)).2.calls = []) := by
  have hi : (World.init s).calls = [] := rfl
  constructor
  · intro e he
    by_cases hs : (d.compiled c shaderType source (World.init s).driver).status = c.GL_FALSE
    · obtain ⟨tail, e', w1, hlog, hv, hc⟩ :=
        newShader_error c d shaderType source (World.init s) hs
      rw [hv]
      simp [hc, hi, releases_append, releases_compileCalls, shaderLogRead_releases hlog]
    · rw [newShader_ok c d shaderType source (World.init s) hs] at he
      simp at he
  · intro e he
    by_cases hv : (d.vertex c vs (World.init s).driver).status = c.GL_FALSE
    · obtain ⟨tail, e', w1, hlog, -, hp, hc⟩ :=
        newProgram_vertex_error c d vs fs (World.init s) hv
      rw [hp]
      simp [hc, hi, releases_append, releases_compileCalls, shaderLogRead_releases hlog]
    by_cases hf : (d.fragment c vs fs (World.init s).driver).status = c.GL_FALSE
    · obtain ⟨tail, e', w2, hlog, hp, hc⟩ :=
        newProgram_fragment_error c d vs fs (World.init s) hv hf
      rw [hp]
      simp [hc, hi, releases_append, releases_compileCalls, shaderLogRead_releases hlog]
    by_cases hl : (d.program c vs fs (World.init s).driver).status = c.GL_FALSE
    · obtain ⟨tail, e', w3, hlog, hp, hc⟩ :=
        newProgram_link_error c d vs fs (World.init s) hv hf hl
      rw [hp]
      simp [hc, hi, releases_append, releases_compileCalls, releases_linkCalls,
        programLogRead_releases hlog]
    · rw [newProgram_ok c d vs fs (World.init s) hv hf hl] at he
      simp at he

/-- Witness of C10: a failing link, and a failing compile. -/
theorem no_release_on_failure_witness :
    (newShader glad (failingDriver "bad") glad.GL_FRAGMENT_SHADER "f" (World.init 0)).1 =
      .error (.runtime_error ⟨['b', 'a', 'd', Char.ofNat 0, Char.ofNat 0]⟩) ∧
    releases (newShader glad (failingDriver "bad") glad.GL_FRAGMENT_SHADER "f"
      (World.init 0)).2.calls = [] ∧
    (newProgram glad linkFailingDriver "v" "f" (World.init 0)).1 =
      .error (.runtime_error ⟨"link error".data ++ [Char.ofNat 0, Char.ofNat 0]⟩) ∧
    releases (newProgram glad linkFailingDriver "v" "f" (World.init 0)).2.calls = [] :=
  ⟨rfl,
   (no_release_on_failure glad (failingDriver "bad") glad.GL_FRAGMENT_SHADER "f" "v" "f" 0).1
     _ rfl,
   rfl,
   (no_release_on_failure glad linkFailingDriver glad.GL_FRAGMENT_SHADER "f" "v" "f" 0).2
     _ rfl⟩

/-- C5, as it is stated, fails.  The exception of `newShader` is the same value for the vertex
stage and for the fragment stage, so no stage can be read off it; and for a driver that
reports failure with an empty log its text is empty. -/
theorem newShader_error_without_stage :
    (¬ ∃ stageOf : Exception → GLenum,
      ∀ shaderType ∈ [glad.GL_VERTEX_SHADER, glad.GL_FRAGMENT_SHADER], ∀ e,
        (newShader glad (failingDriver "bad") shaderType "x" (World.init 0)).1 = .error e →
        stageOf e = shaderType) ∧
    (newShader glad (failingDriver "") glad.GL_VERTEX_SHADER "x" (World.init 0)).1 =
      .error (.runtime_error ⟨[Char.ofNat 0]⟩) ∧
    Exception.what (.runtime_error ⟨[Char.ofNat 0]⟩) = some "" := by
  refine ⟨?_, rfl, rfl⟩
  rintro ⟨stageOf, h⟩
  have hv := h glad.GL_VERTEX_SHADER (by simp) _ rfl
  have hf := h glad.GL_FRAGMENT_SHADER (by simp) _ rfl
  have : glad.GL_VERTEX_SHADER = glad.GL_FRAGMENT_SHADER := hv.symm.trans hf
  exact absurd this (by decide)

/-- C5, amended.  Let the driver answer the info-log queries on shaders as OpenGL specifies,
with logs whose length the 32-bit addition `logLength + 1` can hold.  For every stage and
source text for which the driver reports compile failure, `newShader` queries the log length,
then fetches the log with that length, and throws a `std::runtime_error` whose text is the
driver's full diagnostic log for that shader.  The exception carries no stage, and its text
is empty when the driver's log is. -/
theorem newShader_failure_log {σ : Type} (c : GLConstants) (d : Driver σ)
    (infoLog : σ → GLuint → String) (hq : ShaderLogQueries c d infoLog)
    (hfit : ∀ s shader, infoLogLength (infoLog s shader) < 2147483647)
    (shaderType : GLenum) (source : String) (s : σ)
    (h : (d.compiled c shaderType source s).status = c.GL_FALSE) :
    ∃ buffer : String,
      (newShader c d shaderType source (World.init s)).1 = .error (.runtime_error buffer) ∧
      (newShader c d shaderType source (World.init s)).2.calls =
        compileCalls c shaderType (d.compiled c shaderType source s).shader source c.GL_FALSE ++
          [.glGetShaderiv (d.compiled c shaderType source s).shader c.GL_INFO_LOG_LENGTH
             (infoLogLength (infoLog (d.compiled c shaderType source s).state
               (d.compiled c shaderType source s).shader)),
           .glGetShaderInfoLog (d.compiled c shaderType source s).shader
             (infoLogLength (infoLog (d.compiled c shaderType source s).state
               (d.compiled c shaderType source s).shader)) buffer] ∧
      Exception.what (.runtime_error buffer) =
        some (infoLog (d.compiled c shaderType source s).state
          (d.compiled c shaderType source s).shader) := by
  have hn : (d.lengthQueried c shaderType source s).1 =
      infoLogLength (infoLog (d.compiled c shaderType source s).state
        (d.compiled c shaderType source s).shader) := hq.length _ _ _
  have hk : infoLog (d.lengthQueried c shaderType source s).2 =
      infoLog (d.compiled c shaderType source s).state := hq.length_keeps _ _ _
  have hge := infoLogLength_nonneg (infoLog (d.compiled c shaderType source s).state
    (d.compiled c shaderType source s).shader)
  have hlt := hfit (d.compiled c shaderType source s).state
    (d.compiled c shaderType source s).shader
  have hw : wrapInt32 (infoLogLength (infoLog (d.compiled c shaderType source s).state
      (d.compiled c shaderType source s).shader) + 1) =
      infoLogLength (infoLog (d.compiled c shaderType source s).state
        (d.compiled c shaderType source s).shader) + 1 :=
    wrapInt32_of_range _ (add_nonneg hge zero_le_one) (Int.add_lt_of_lt_sub_right hlt)
  have hpos : ¬ (infoLogLength (infoLog (d.compiled c shaderType source s).state
      (d.compiled c shaderType source s).shader) + 1 < 0) :=
    not_lt.mpr (add_nonneg hge zero_le_one)
  have hr0 : resize (infoLogLength (infoLog (d.compiled c shaderType source s).state
      (d.compiled c shaderType source s).shader) + 1) =
      some ⟨List.replicate (infoLogLength (infoLog (d.compiled c shaderType source s).state
        (d.compiled c shaderType source s).shader) + 1).toNat (Char.ofNat 0)⟩ := by
    simp only [resize]
    rw [if_neg hpos]
  have hr : resize (wrapInt32 ((d.lengthQueried c shaderType source (World.init s).driver).1 +
      1)) = some ⟨List.replicate (infoLogLength (infoLog
        (d.compiled c shaderType source s).state
        (d.compiled c shaderType source s).shader) + 1).toNat (Char.ofNat 0)⟩ := by
    show resize (wrapInt32 ((d.lengthQueried c shaderType source s).1 + 1)) = _
    rw [hn, hw, hr0]
  have e := newShader_error_eq c d shaderType source (World.init s) _ h hr
  have hs : (World.init s).driver = s := rfl
  have hi : (World.init s).calls = [] := rfl
  rw [hs, hi, List.nil_append] at e
  have hf : (d.logFetched c shaderType source s).1 =
      infoLogFetched (infoLog (d.compiled c shaderType source s).state
        (d.compiled c shaderType source s).shader)
        (infoLogLength (infoLog (d.compiled c shaderType source s).state
          (d.compiled c shaderType source s).shader)) := by
    have := hq.fetch (d.lengthQueried c shaderType source s).2
      (d.compiled c shaderType source s).shader (d.lengthQueried c shaderType source s).1
    rw [hk, hn] at this
    rw [← this, ← hn]
    rfl
  rw [e, hn, hf]
  exact ⟨_, rfl, rfl, congrArg some (c_str_storeLog _ _ (hq.c_string _ _) hr0)⟩

/-- Witness of C5: a driver whose every compile fails with the log "bad". -/
theorem newShader_failure_log_witness :
    ShaderLogQueries glad (failingDriver "bad") (fun _ _ => "bad") ∧
    (∀ (_ : Nat) (_ : GLuint), infoLogLength "bad" < 2147483647) ∧
    ((failingDriver "bad").compiled glad glad.GL_VERTEX_SHADER "v" 0).status = glad.GL_FALSE ∧
    ∃ buffer : String,
      (newShader glad (failingDriver "bad") glad.GL_VERTEX_SHADER "v" (World.init 0)).1 =
        .error (.runtime_error buffer) ∧
      (newShader glad (failingDriver "bad") glad.GL_VERTEX_SHADER "v" (World.init 0)).2.calls =
        compileCalls glad glad.GL_VERTEX_SHADER 1 "v" glad.GL_FALSE ++
          [.glGetShaderiv 1 glad.GL_INFO_LOG_LENGTH (infoLogLength "bad"),
           .glGetShaderInfoLog 1 (infoLogLength "bad") buffer] ∧
      Exception.what (.runtime_error buffer) = some "bad" :=
  ⟨failingDriver_logQueries "bad" (by decide), fun _ _ => by decide, by decide,
   newShader_failure_log glad (failingDriver "bad") (fun _ _ => "bad")
     (failingDriver_logQueries "bad" (by decide))
     (fun _ _ => (by decide : infoLogLength "bad" < 2147483647))
     glad.GL_VERTEX_SHADER "v" 0 (by decide)⟩

end AmdErrorDemo
